import Mathlib

/-!
Verification of the staged CoreML conversion pipeline of AppleNeuralEngine-Kit
(`scripts/convert_hf_to_coreml.py`, `scripts/convert_model.py`,
`scripts/generate_processors.py`), shallowly embedded in Lean.

Conventions of the embedding:
* Python floats are modelled as exact rationals (`ℚ`); every float literal
  appearing in the relevant code (1.25, 1.5, 0.05, 0.3, 0.5, 1.0, 1e9) is
  used in band tests and products whose outcomes at the inputs considered
  do not depend on binary rounding.
* Python `int(x)` on a non-negative float is `Nat.floor`.
* Python truthiness of optional numeric config fields (`None`/`0` falsy)
  is modelled by `pyTruthy` on `Option ℕ`.
* Filesystem effects are modelled as lists of abstract `Artifact` values;
  `os.makedirs(..., exist_ok=True)` plus a metadata write is "the artifact
  now exists".
* A Python exception escaping a statement is an explicit error value
  (`PyError`); `except Exception` blocks are the corresponding `match`.
-/

/-! ## String helpers (Python `in` substring test and `str.lower`) -/

/-- Boolean test that the first list is an initial segment of the second. -/
def listStartsWith : List Char → List Char → Bool
  | [], _ => true
  | _ :: _, [] => false
  | a :: as, b :: bs => a == b && listStartsWith as bs

/-- Contiguous-substring search over character lists: Python `needle in hay`
for strings (empty needle matches). -/
def containsAux (needle : List Char) : List Char → Bool
  | [] => needle.isEmpty
  | c :: rest => listStartsWith needle (c :: rest) || containsAux needle rest

/-- Python `needle in hay` for strings. -/
def strContains (hay needle : String) : Bool :=
  containsAux needle.toList hay.toList

/-- Python `str.lower` restricted to ASCII (all keys in the repository's
architecture tables are ASCII). -/
def pyLower (s : String) : String :=
  String.mk (s.toList.map Char.toLower)

/-! ## Architecture Classifier — `detect_model_architecture`
(`scripts/convert_hf_to_coreml.py`, lines 120–153) -/

/-- The `architecture_mapping` dict of `detect_model_architecture`, in its
declared (insertion) order. -/
def architecture_mapping : List (String × String) :=
  [("llama", "llama"), ("mistral", "mistral"), ("phi", "phi"),
   ("qwen", "qwen"), ("qwq", "qwq"), ("falcon", "falcon"),
   ("gemma", "gemma"), ("stablelm", "stablelm"), ("mpt", "mpt")]

/-- The `for key, architecture in architecture_mapping.items()` loop:
first table entry whose key is a substring of `model_type`. -/
def firstMatch : List (String × String) → String → Option String
  | [], _ => none
  | (key, architecture) :: rest, model_type =>
    if strContains model_type key then some architecture
    else firstMatch rest model_type

/-- Function `detect_model_architecture(config)`: lower-case the declared
`model_type`, return the first substring match from the table, and fall
back to `"generic"`. -/
def detect_model_architecture (model_type : String) : String :=
  (firstMatch architecture_mapping (pyLower model_type)).getD "generic"

/-! ## Architecture classifier of `scripts/convert_model.py`
(`detect_architecture`, lines 66–93): exact dict lookup, `None` fallback. -/

/-- The `architecture_map` dict of `detect_architecture` in
`scripts/convert_model.py`. -/
def architecture_map : List (String × String) :=
  [("llama", "llama"), ("mistral", "mistral"), ("phi", "phi"),
   ("gemma", "gemma"), ("falcon", "falcon"), ("qwen", "qwen"),
   ("qwq", "qwq")]

/-- Function `detect_architecture(model_path)` core: `architecture_map.get(model_type,
None)` on the lower-cased `model_type` — an exact-key lookup. -/
def detect_architecture (model_type : String) : Option String :=
  (architecture_map.find? (fun p => p.1 == pyLower model_type)).map (·.2)

/-! ## Sizing Estimator — `recommend_chunk_count`
(`scripts/convert_hf_to_coreml.py`, lines 155–221) -/

/-- The relevant fields of a HuggingFace model config; absent attributes
(`getattr(config, f, None)` returning `None`) are `none`. -/
structure HFConfig where
  model_type : String
  hidden_size : Option ℕ := none
  n_embd : Option ℕ := none
  d_model : Option ℕ := none
  num_hidden_layers : Option ℕ := none
  n_layer : Option ℕ := none
  num_layers : Option ℕ := none
  vocab_size : Option ℕ := none

/-- Python `a or b` on optional numeric values: `None` and `0` are falsy. -/
def pyOr (a b : Option ℕ) : Option ℕ :=
  match a with
  | some n => if n = 0 then b else some n
  | none => b

/-- Python truthiness of an optional numeric value. -/
def pyTruthy : Option ℕ → Bool
  | none => false
  | some n => n != 0

/-- Resolution of `hidden_size`: `getattr(config, 'hidden_size', None) or
getattr(config, 'n_embd', None) or getattr(config, 'd_model', None)`. -/
def resolveHiddenSize (c : HFConfig) : Option ℕ :=
  pyOr (pyOr c.hidden_size c.n_embd) c.d_model

/-- Resolution of `num_layers`: `num_hidden_layers or n_layer or num_layers`. -/
def resolveNumLayers (c : HFConfig) : Option ℕ :=
  pyOr (pyOr c.num_hidden_layers c.n_layer) c.num_layers

/-- The `architecture_base_chunks` dict together with its `.get(architecture,
6)` default. -/
def architecture_base_chunks (architecture : String) : ℕ :=
  (([("llama", 6), ("mistral", 7), ("phi", 6), ("qwen", 8), ("qwq", 9),
     ("falcon", 7), ("gemma", 6), ("stablelm", 5), ("mpt", 6),
     ("generic", 6)] : List (String × ℕ)).find?
    (fun p => p.1 == architecture)).elim 6 (·.2)

/-- Estimate `param_count = (4 * hidden_size**2 * num_layers + vocab_size *
hidden_size) / 1e9`, in billions, as an exact rational. -/
def param_count_of (hidden_size num_layers vocab_size : ℕ) : ℚ :=
  (4 * (hidden_size : ℚ) ^ 2 * num_layers + vocab_size * hidden_size) / 1e9

/-- The parameter-count banding of `recommend_chunk_count`:
`base` below 2B, `int(base * 1.25)` below 7B, `int(base * 1.5)` above
(Python `int` truncates, i.e. floors these non-negative products). -/
def chunk_count_raw (base_chunks : ℕ) (param_count : ℚ) : ℕ :=
  if param_count < 2 then base_chunks
  else if param_count < 7 then ⌊(base_chunks : ℚ) * 1.25⌋₊
  else ⌊(base_chunks : ℚ) * 1.5⌋₊

/-- Rounding `chunk_count = max(4, 2 * ((chunk_count + 1) // 2))`: round up to an
even number, with floor 4. -/
def even_floor4 (chunk_count : ℕ) : ℕ :=
  max 4 (2 * ((chunk_count + 1) / 2))

/-- The sized chunk count for a fixed architecture as a function of the
estimated parameter count (the fragment of `recommend_chunk_count` after
the config fields have been read). -/
def chunk_count_of (architecture : String) (param_count : ℚ) : ℕ :=
  even_floor4 (chunk_count_raw (architecture_base_chunks architecture) param_count)

/-- Function `recommend_chunk_count(model_path)` on a loaded config: detect the
architecture, resolve the sizing fields (default 6 if any is falsy),
estimate the parameter count and derive the chunk count. -/
def recommend_chunk_count (c : HFConfig) : ℕ :=
  let architecture := detect_model_architecture c.model_type
  let hidden_size := resolveHiddenSize c
  let num_layers := resolveNumLayers c
  let vocab_size := c.vocab_size
  if !(pyTruthy hidden_size && pyTruthy num_layers && pyTruthy vocab_size) then 6
  else
    chunk_count_of architecture
      (param_count_of (hidden_size.getD 0) (num_layers.getD 0) (vocab_size.getD 0))

/-! ## Spec-side sizing formulas (for the refinement comparison of C1).
These two definitions follow the WORDS of the specification, not the code:
the spec asserts `raw = round(base * factor)` and
`chunkCount = max(4, 2 * ceil(raw / 2))`. -/

/-- Modelled from the spec's words (§4.3): the claimed raw value uses
`round` (nearest integer) instead of the code's truncation. -/
def spec_chunk_count_raw (base_chunks : ℕ) (param_count : ℚ) : ℕ :=
  if param_count < 2 then base_chunks
  else if param_count < 7 then (round ((base_chunks : ℚ) * 1.25)).toNat
  else (round ((base_chunks : ℚ) * 1.5)).toNat

/-- Modelled from the spec's words: `chunkCount = max(4, 2 * ceil(raw/2))`. -/
def spec_even_floor4 (raw : ℕ) : ℕ :=
  max 4 (2 * ⌈(raw : ℚ) / 2⌉₊)

/-- The chunk count as the specification claims it is computed. -/
def spec_chunk_count_of (architecture : String) (param_count : ℚ) : ℕ :=
  spec_even_floor4 (spec_chunk_count_raw (architecture_base_chunks architecture) param_count)

/-- The amended raw value: identical to the spec's formula except that the
scaled base is truncated (floored) rather than rounded, matching Python
`int(...)`. -/
def amended_chunk_count_of (architecture : String) (param_count : ℚ) : ℕ :=
  spec_even_floor4 (chunk_count_raw (architecture_base_chunks architecture) param_count)

/-! ## Pipeline Executor — `convert_model`
(`scripts/convert_model.py`, lines 383–492)

The eight stage effects, the step gating on `--only`/`--restart`, the
local-variable dataflow between steps, and the final `collect_outputs`
call are embedded. Stage effects only create directories and write small
metadata files, so an effect is modelled as the set of artifacts it makes
exist. Python local variables that may be read before assignment
(`ffn_chunks`, `prefill_chunks`, `embeddings_path`, `lm_head_path`,
`combined_chunks`) are `Option`-valued: reading `none` raises the
`UnboundLocalError` CPython raises there. `collect_outputs` reads the name
`params`, which is a parameter of `convert_model` but is NOT defined in
`collect_outputs` nor at module scope, so CPython raises a `NameError`
when it is reached. -/

/-- Command-line parameters of `scripts/convert_model.py` (`parse_args`).
`restart`/`only` are `none` when the flag is absent. -/
structure Params where
  model : String := "model"
  output : String := "out"
  architecture : Option String := none
  context : ℕ := 1024
  batch_size : ℕ := 64
  chunks : ℕ := 2
  lut : ℕ := 6
  skip_check : Bool := false
  restart : Option ℕ := none
  only : Option ℕ := none

/-- The logical artifacts the pipeline can create. `compiled` wraps the
artifact a compiled entry was produced from (Stage 6 compiles the
embeddings, the LM head and every combined chunk). -/
inductive Artifact
  | embeddings
  | lm_head (lut : ℕ)
  | ffn_chunk (lut i n : ℕ)
  | prefill_chunk (lut i n : ℕ)
  | combined_chunk (lut i n : ℕ)
  | compiled (source : Artifact)
  | meta_yaml
  | meta_json
  | test_report
deriving DecidableEq, Repr

/-- Whether an artifact lives in the `temp/compiled` directory. -/
def Artifact.isCompiled : Artifact → Bool
  | .compiled _ => true
  | _ => false

/-- Whether an artifact is a Stage-5 combined chunk. -/
def Artifact.isCombined : Artifact → Bool
  | .combined_chunk _ _ _ => true
  | _ => false

/-- Filesystem state: artifacts existing under `temp/` and under the final
output directory. -/
structure FS where
  temp : List Artifact := []
  out : List Artifact := []
deriving DecidableEq, Repr

/-- The local variables of `convert_model` that are assigned by one step
and read by a later one. -/
structure Env where
  embeddings_path : Option Artifact := none
  lm_head_path : Option Artifact := none
  ffn_chunks : Option (List Artifact) := none
  prefill_chunks : Option (List Artifact) := none
  combined_chunks : Option (List Artifact) := none

/-- The Python exceptions this control flow can raise. -/
inductive PyError
  | unboundLocal (var : String)
  | nameError (var : String)
deriving DecidableEq, Repr

/-- The message CPython attaches to the exception (quote characters
omitted). -/
def PyError.message : PyError → String
  | .unboundLocal v =>
    "cannot access local variable " ++ v ++ " where it is not associated with a value"
  | .nameError v => "name " ++ v ++ " is not defined"

/-- Python truthiness gate `not params.only or params.only == i`. -/
def onlyGate (only : Option ℕ) (i : ℕ) : Bool :=
  match only with
  | none => true
  | some o => o == 0 || o == i

/-- Python truthiness gate `not params.restart or params.restart <= i`. -/
def restartGate (restart : Option ℕ) (i : ℕ) : Bool :=
  match restart with
  | none => true
  | some r => r == 0 || r ≤ i

/-- The guard under which step `i` of `convert_model` executes:
`(not params.only or params.only == i) and
(not params.restart or params.restart <= i)`. -/
def step_gate (p : Params) (i : ℕ) : Bool :=
  onlyGate p.only i && restartGate p.restart i

/-- The chunk artifact list produced by a chunked stage:
`for i in range(params.chunks)` with `chunk_num = i + 1`. -/
def chunkArts (mk : ℕ → ℕ → ℕ → Artifact) (lut n : ℕ) : List Artifact :=
  (List.range n).map (fun i => mk lut (i + 1) n)

/-- Step outcome: either an escaped exception or the updated locals and
filesystem. -/
def StepResult := Option PyError × Env × FS

/-- Sequencing of steps inside the single `try`: a raised exception skips
the remaining steps. -/
def pyBind (r : StepResult) (f : Env × FS → StepResult) : StepResult :=
  match r with
  | (some e, env, fs) => (some e, env, fs)
  | (none, env, fs) => f (env, fs)

/-- Step 1, `convert_embeddings`: creates the embeddings mlpackage. -/
def step_embeddings (p : Params) : Env × FS → StepResult
  | (env, fs) =>
    if step_gate p 1 then
      let a := Artifact.embeddings
      (none, { env with embeddings_path := some a },
        { fs with temp := fs.temp ++ [a] })
    else (none, env, fs)

/-- Step 2, `convert_lm_head`: creates the LUT-quantized LM head. -/
def step_lm_head (p : Params) : Env × FS → StepResult
  | (env, fs) =>
    if step_gate p 2 then
      let a := Artifact.lm_head p.lut
      (none, { env with lm_head_path := some a },
        { fs with temp := fs.temp ++ [a] })
    else (none, env, fs)

/-- Step 3, `convert_ffn`: creates `chunks` FFN chunk mlpackages. -/
def step_ffn (p : Params) : Env × FS → StepResult
  | (env, fs) =>
    if step_gate p 3 then
      let cs := chunkArts .ffn_chunk p.lut p.chunks
      (none, { env with ffn_chunks := some cs },
        { fs with temp := fs.temp ++ cs })
    else (none, env, fs)

/-- Step 4, `convert_prefill`: creates `chunks` prefill chunk mlpackages. -/
def step_prefill (p : Params) : Env × FS → StepResult
  | (env, fs) =>
    if step_gate p 4 then
      let cs := chunkArts .prefill_chunk p.lut p.chunks
      (none, { env with prefill_chunks := some cs },
        { fs with temp := fs.temp ++ cs })
    else (none, env, fs)

/-- Step 5, `combine_models(params, temp_dir, ffn_chunks, prefill_chunks)`:
evaluating the call arguments reads the locals `ffn_chunks` then
`prefill_chunks`; if a gated-out Stage 3/4 never assigned them, CPython
raises `UnboundLocalError` before any Stage-5 effect. The effect itself
only iterates `range(params.chunks)` (the argument values are unused). -/
def step_combine (p : Params) : Env × FS → StepResult
  | (env, fs) =>
    if step_gate p 5 then
      match env.ffn_chunks with
      | none => (some (.unboundLocal "ffn_chunks"), env, fs)
      | some _ =>
        match env.prefill_chunks with
        | none => (some (.unboundLocal "prefill_chunks"), env, fs)
        | some _ =>
          let cs := chunkArts .combined_chunk p.lut p.chunks
          (none, { env with combined_chunks := some cs },
            { fs with temp := fs.temp ++ cs })
    else (none, env, fs)

/-- Step 6, `compile_models(params, temp_dir, embeddings_path, lm_head_path,
combined_chunks)`: reads three locals, then compiles the embeddings, the LM
head and every combined chunk into `temp/compiled`. -/
def step_compile (p : Params) : Env × FS → StepResult
  | (env, fs) =>
    if step_gate p 6 then
      match env.embeddings_path with
      | none => (some (.unboundLocal "embeddings_path"), env, fs)
      | some emb =>
        match env.lm_head_path with
        | none => (some (.unboundLocal "lm_head_path"), env, fs)
        | some lm =>
          match env.combined_chunks with
          | none => (some (.unboundLocal "combined_chunks"), env, fs)
          | some cc =>
            let compiledArts := ([emb, lm] ++ cc).map Artifact.compiled
            (none, env, { fs with temp := fs.temp ++ compiledArts })
    else (none, env, fs)

/-- Step 7, `create_metadata`: writes `meta.yaml` and `meta.json` to the
output directory. -/
def step_metadata (p : Params) : Env × FS → StepResult
  | (env, fs) =>
    if step_gate p 7 then
      (none, env, { fs with out := fs.out ++ [.meta_yaml, .meta_json] })
    else (none, env, fs)

/-- Step 8, `test_conversion`: writes `test_report.json` to the output
directory and returns `True`. -/
def step_test (p : Params) : Env × FS → StepResult
  | (env, fs) =>
    if step_gate p 8 then
      (none, env, { fs with out := fs.out ++ [.test_report] })
    else (none, env, fs)

/-- Function `collect_outputs(temp_dir, output_dir)`: copies everything under
`temp/compiled` into the output directory, then iterates the tokenizer
file names and builds `os.path.join(params.model, file)` — but `params` is
neither a local of `collect_outputs` nor a module-level global, so the
first loop iteration raises `NameError: name params is not defined`. -/
def collect_outputs : Env × FS → StepResult
  | (env, fs) =>
    let fs := { fs with out := fs.out ++ fs.temp.filter Artifact.isCompiled }
    (some (.nameError "params"), env, fs)

/-- The body of the `try` block of `convert_model`: the eight gated steps
in order, then `collect_outputs`. -/
def runSteps (p : Params) (fs0 : FS) : StepResult :=
  pyBind (pyBind (pyBind (pyBind (pyBind (pyBind (pyBind (pyBind
    (step_embeddings p ({}, fs0))
    (step_lm_head p)) (step_ffn p)) (step_prefill p)) (step_combine p))
    (step_compile p)) (step_metadata p)) (step_test p)) collect_outputs

/-- Function `convert_model(params)`: `True` on a clean run, `False` when the
`except Exception` handler catches an escaped exception. Filesystem
effects performed before the exception are kept. -/
def convert_model (p : Params) (fs0 : FS) : Bool × FS :=
  match runSteps p fs0 with
  | (some _, _, fs) => (false, fs)
  | (none, _, fs) => (true, fs)

/-- Function `main()`: dependency check (its outcome abstracted as `deps_ok`), then
`convert_model`; `sys.exit(1)` on a failed check or a failed conversion,
process exit 0 otherwise. -/
def main_exit (p : Params) (deps_ok : Bool) (fs0 : FS) : ℕ × FS :=
  if !p.skip_check && !deps_ok then (1, fs0)
  else
    match convert_model p fs0 with
    | (false, fs) => (1, fs)
    | (true, fs) => (0, fs)

/-! ## Progress Tracker — `conversion_progress`, `progress_step`,
`update_progress` (`scripts/convert_hf_to_coreml.py`, lines 23–106).
Wall-clock times are external inputs (`elapsed`); they influence only the
reported ETA, never the stored progress state. -/

/-- The module-global `conversion_progress` dict (the fields the control
flow reads; `current_step` and `start_time` do not affect the reported
overall progress and are not tracked). -/
structure ProgressState where
  total_steps : ℕ := 8
  step_progress : ℚ := 0
  overall_progress : ℚ := 0
  steps_completed : List String := []
deriving Repr

/-- Entering `progress_step(step_name)`: reset the per-step fraction. -/
def progress_step_enter (s : ProgressState) : ProgressState :=
  { s with step_progress := 0 }

/-- Leaving `progress_step` without an exception: append the step to
`steps_completed`, set the step fraction to 1 and recompute
`overall_progress = len(steps_completed) / total_steps`. -/
def progress_step_complete (step_name : String) (s : ProgressState) : ProgressState :=
  let completed := s.steps_completed ++ [step_name]
  { s with
    steps_completed := completed
    step_progress := 1
    overall_progress := (completed.length : ℚ) / s.total_steps }

/-- The state update of `update_progress(progress)`:
`overall = steps_done / total_steps + progress / total_steps`. -/
def update_progress (progress : ℚ) (s : ProgressState) : ProgressState :=
  let steps_done := s.steps_completed.length
  let current_step_contrib := progress / s.total_steps
  let overall := (steps_done : ℚ) / s.total_steps + current_step_contrib
  { s with step_progress := progress, overall_progress := overall }

/-- The report `update_progress` emits: the overall value and, only once
`overall > 0.05`, the ETA `elapsed / overall - elapsed`. -/
structure Report where
  overall : ℚ
  eta : Option ℚ
deriving Repr

/-- Call `update_progress(progress, message)` as state transformer plus report:
the ETA is computed and attached to the status line only under the guard
`overall > 0.05`; otherwise `eta_str` stays empty and no division by the
small `overall` happens. -/
def update_progress_report (progress elapsed : ℚ) (s : ProgressState) :
    ProgressState × Report :=
  let s' := update_progress progress s
  let overall := s'.overall_progress
  let eta := if overall > 0.05 then some (elapsed / overall - elapsed) else none
  (s', { overall := overall, eta := eta })

/-- The progress-tracker calls a pipeline run makes, in order. -/
inductive PEvent
  | start (name : String)
  | update (fraction : ℚ)
  | complete (name : String)

/-- One tracker call applied to the progress state. -/
def pstep (s : ProgressState) : PEvent → ProgressState
  | .start _ => progress_step_enter s
  | .update f => update_progress f s
  | .complete name => progress_step_complete name s

/-- The `overall_progress` values held after each tracker call of a run
(starting value included). -/
def overalls (s : ProgressState) (es : List PEvent) : List ℚ :=
  (es.scanl pstep s).map ProgressState.overall_progress

/-- The `conversion_steps` list of `main()` in
`scripts/convert_hf_to_coreml.py`. -/
def conversion_steps : List String :=
  ["Loading model configuration", "Analyzing model architecture",
   "Loading model weights", "Optimizing model for ANE",
   "Tracing model with dummy inputs", "Converting to CoreML format",
   "Applying quantization", "Saving converted model"]

/-- The exact sequence of tracker calls a successful `main()` run of
`scripts/convert_hf_to_coreml.py` performs (lines 427–559): each
`with progress_step(...)` block with the `update_progress` fractions its
body passes. -/
def hf_main_events : List PEvent :=
  [.start "Loading model configuration", .update 0.5, .update 1.0,
   .complete "Loading model configuration",
   .start "Analyzing model architecture", .update 1.0,
   .complete "Analyzing model architecture",
   .start "Loading model weights", .update 1.0,
   .complete "Loading model weights",
   .start "Optimizing model for ANE", .update 1.0,
   .complete "Optimizing model for ANE",
   .start "Tracing model with dummy inputs", .update 0.3, .update 1.0,
   .complete "Tracing model with dummy inputs",
   .start "Converting to CoreML format", .update 0.3, .update 1.0,
   .complete "Converting to CoreML format",
   .start "Applying quantization", .update 1.0,
   .complete "Applying quantization",
   .start "Saving converted model", .update 1.0,
   .complete "Saving converted model"]

/-! ## Logit processor — `LogitProcessor.forward`
(`scripts/generate_processors.py`, lines 106–121).
The logits tensor is a list of scores; `torch.softmax` applies an
exponential map and normalizes, so the embedding takes the (strictly
positive, numerics-external) exponential as a parameter; `torch.argmax`
returns the index of the first maximal entry. -/

/-- Index of the first maximal element of a list of scores (`torch.argmax`
over the last dimension). -/
def argmaxIdx : List ℚ → ℕ
  | [] => 0
  | x :: xs =>
    let rec go (best : ℚ) (bestIdx idx : ℕ) : List ℚ → ℕ
      | [] => bestIdx
      | y :: ys => if y > best then go y idx (idx + 1) ys else go best bestIdx (idx + 1) ys
    go x 0 1 xs

/-- Model of `torch.softmax(logits, dim=-1)` with the pointwise exponential `exp`
passed in as the external numerical collaborator. -/
def softmax (exp : ℚ → ℚ) (logits : List ℚ) : List ℚ :=
  let es := logits.map exp
  let s := es.sum
  es.map (fun e => e / s)

/-- Method `LogitProcessor.forward(logits, temperature, top_p)`: divide by the
temperature, softmax, return the argmax token. The `top_p` parameter is
accepted but never used by the body. -/
def LogitProcessor_forward (exp : ℚ → ℚ) (logits : List ℚ)
    (temperature : ℚ) (top_p : ℚ) : ℕ :=
  let scaled := logits.map (fun x => x / temperature)
  let probs := softmax exp scaled
  let top_token := argmaxIdx probs
  top_token

/-! ## Concrete configurations used by counterexamples and witnesses -/

/-- A mistral config with the spec's example dimensions (≈2.28B params). -/
def cfg_mistral : HFConfig :=
  { model_type := "mistral", hidden_size := some 4096,
    num_hidden_layers := some 32, vocab_size := some 32000 }

/-- The spec's own example config: llama, 4096/32/32000. -/
def cfg_llama : HFConfig :=
  { model_type := "llama", hidden_size := some 4096,
    num_hidden_layers := some 32, vocab_size := some 32000 }

/-- Parameters for a run with `--only 5`. -/
def p_only5 : Params := { only := some 5 }

/-- Parameters for a run with `--only 2 --restart 5`. -/
def p_only2_restart5 : Params := { only := some 2, restart := some 5 }

/-- An arbitrary invocation with `--only 5` and no `--restart`. -/
def params_only5 (model output : String) (arch : Option String)
    (context batch_size chunks lut : ℕ) : Params :=
  { model := model, output := output, architecture := arch,
    context := context, batch_size := batch_size, chunks := chunks,
    lut := lut, only := some 5 }

/-- An arbitrary invocation with both `--only` and `--restart` set. -/
def params_only_restart (o r : ℕ) : Params :=
  { only := some o, restart := some r }

/-! ## Evaluation lemmas for the sizing arithmetic.
Rational arithmetic does not reduce definitionally here, so the floors of
the (exactly representable) scaled bases are converted to natural-number
division once and for all. -/

/-- Truncating `base * 1.25` equals natural division `base * 5 / 4`. -/
theorem floor_mul_125 (b : ℕ) : ⌊(b : ℚ) * 1.25⌋₊ = b * 5 / 4 := by
  have h : (b : ℚ) * 1.25 = ((b * 5 : ℕ) : ℚ) / ((4 : ℕ) : ℚ) := by
    push_cast; ring_nf
  rw [h, Nat.floor_div_eq_div]

/-- Truncating `base * 1.5` equals natural division `base * 3 / 2`. -/
theorem floor_mul_15 (b : ℕ) : ⌊(b : ℚ) * 1.5⌋₊ = b * 3 / 2 := by
  have h : (b : ℚ) * 1.5 = ((b * 3 : ℕ) : ℚ) / ((2 : ℕ) : ℚ) := by
    push_cast; ring_nf
  rw [h, Nat.floor_div_eq_div]

/-- Rational ceiling of `m / 2` equals natural `(m + 1) / 2` — the even
round-up of the spec coincides with the code's `2 * ((c + 1) // 2)`. -/
theorem nat_ceil_half (m : ℕ) : ⌈(m : ℚ) / 2⌉₊ = (m + 1) / 2 := by
  rcases Nat.even_or_odd m with ⟨k, hk⟩ | ⟨k, hk⟩
  · subst hk
    have h : ((k + k : ℕ) : ℚ) / 2 = (k : ℚ) := by push_cast; ring
    rw [h, Nat.ceil_natCast]
    omega
  · subst hk
    have h : ((2 * k + 1 : ℕ) : ℚ) / 2 = (k : ℚ) + 1 / 2 := by push_cast; ring
    have h2 : (2 * k + 1 + 1) / 2 = k + 1 := by omega
    rw [h, h2, Nat.ceil_eq_iff (by omega : k + 1 ≠ 0)]
    refine ⟨by push_cast; norm_num, by push_cast; norm_num⟩

/-- The spec's even round-up agrees with the code's even round-up; only the
raw values they are applied to can differ. -/
theorem spec_even_floor4_eq (m : ℕ) : spec_even_floor4 m = even_floor4 m := by
  unfold spec_even_floor4 even_floor4
  rw [nat_ceil_half]

/-- Band evaluation: small models use the base chunk count. -/
theorem chunk_count_raw_lo (b : ℕ) {p : ℚ} (h : p < 2) :
    chunk_count_raw b p = b := by
  unfold chunk_count_raw
  rw [if_pos h]

/-- Band evaluation: medium models truncate `base * 1.25`. -/
theorem chunk_count_raw_mid (b : ℕ) {p : ℚ} (h2 : ¬p < 2) (h7 : p < 7) :
    chunk_count_raw b p = b * 5 / 4 := by
  unfold chunk_count_raw
  rw [if_neg h2, if_pos h7, floor_mul_125]

/-- Band evaluation: large models truncate `base * 1.5`. -/
theorem chunk_count_raw_hi (b : ℕ) {p : ℚ} (h2 : ¬p < 2) (h7 : ¬p < 7) :
    chunk_count_raw b p = b * 3 / 2 := by
  unfold chunk_count_raw
  rw [if_neg h2, if_neg h7, floor_mul_15]

/-- Reading the config fields of `recommend_chunk_count`: when all three
resolved sizing fields are present and non-zero, the result is the banded
chunk count at the estimated parameter count. -/
theorem recommend_chunk_count_eval (c : HFConfig) (h L V : ℕ)
    (hh : resolveHiddenSize c = some h) (hL : resolveNumLayers c = some L)
    (hV : c.vocab_size = some V) (hh0 : h ≠ 0) (hL0 : L ≠ 0) (hV0 : V ≠ 0) :
    recommend_chunk_count c =
      chunk_count_of (detect_model_architecture c.model_type)
        (param_count_of h L V) := by
  unfold recommend_chunk_count
  rw [hh, hL, hV]
  simp [pyTruthy, hh0, hL0, hV0]

/-- C1, counterexample. The claim computes the medium-band raw value as
`round(base * 1.25)`. For the mistral base 7 and the spec's example
dimensions (param count ≈ 2.28B, inside the 2B–7B band) the code truncates
`7 * 1.25 = 8.75` to 8 and returns 8, while the claimed formula rounds
8.75 to 9 and returns the even round-up 10. -/
theorem c1_counterexample :
    detect_model_architecture "mistral" = "mistral" ∧
    recommend_chunk_count cfg_mistral = 8 ∧
    spec_chunk_count_of "mistral" (param_count_of 4096 32 32000) = 10 := by
  refine ⟨by decide, ?_, ?_⟩
  · rw [recommend_chunk_count_eval cfg_mistral 4096 32 32000 (by decide)
      (by decide) rfl (by decide) (by decide) (by decide)]
    rw [show detect_model_architecture cfg_mistral.model_type = "mistral" from by decide]
    unfold chunk_count_of
    rw [chunk_count_raw_mid _ (by norm_num [param_count_of]) (by norm_num [param_count_of])]
    decide
  · unfold spec_chunk_count_of spec_chunk_count_raw
    rw [show architecture_base_chunks "mistral" = 7 from by decide]
    rw [if_neg (by norm_num [param_count_of]), if_pos (by norm_num [param_count_of])]
    rw [show ((7 : ℕ) : ℚ) * 1.25 = 35 / 4 by norm_num]
    rw [round_eq, show (35 : ℚ) / 4 + 1 / 2 = 37 / 4 by norm_num,
      show ⌊(37 : ℚ) / 4⌋ = 9 from by rw [Int.floor_eq_iff]; norm_num]
    rw [spec_even_floor4_eq]
    decide

/-- C1, amended: for every architecture and estimated parameter count
(all sizing fields present and non-zero), the recommended chunk count is
`max(4, 2 * ceil(raw / 2))` where `raw` is the base chunk count below 2B,
the TRUNCATION `int(base * 1.25)` below 7B and the truncation
`int(base * 1.5)` above — truncation toward zero, not rounding to the
nearest integer. -/
theorem c1_amended (c : HFConfig) (h L V : ℕ)
    (hh : resolveHiddenSize c = some h) (hL : resolveNumLayers c = some L)
    (hV : c.vocab_size = some V) (hh0 : h ≠ 0) (hL0 : L ≠ 0) (hV0 : V ≠ 0) :
    recommend_chunk_count c =
      amended_chunk_count_of (detect_model_architecture c.model_type)
        (param_count_of h L V) := by
  rw [recommend_chunk_count_eval c h L V hh hL hV hh0 hL0 hV0]
  unfold amended_chunk_count_of chunk_count_of
  rw [spec_even_floor4_eq]

/-- C1, witness: the amended formula applied at the spec's example config
(llama, 4096/32/32000). -/
theorem c1_witness :
    resolveHiddenSize cfg_llama = some 4096 ∧
    resolveNumLayers cfg_llama = some 32 ∧
    cfg_llama.vocab_size = some 32000 ∧
    recommend_chunk_count cfg_llama =
      amended_chunk_count_of (detect_model_architecture cfg_llama.model_type)
        (param_count_of 4096 32 32000) :=
  ⟨by decide, by decide, rfl,
    c1_amended cfg_llama 4096 32 32000 (by decide) (by decide) rfl
      (by decide) (by decide) (by decide)⟩

/-! ## Helper lemmas for the substring classifier -/

/-- A table scan with no matching key yields nothing. -/
theorem firstMatch_eq_none (l : List (String × String)) (mt : String)
    (h : ∀ p ∈ l, strContains mt p.1 = false) : firstMatch l mt = none := by
  induction l with
  | nil => rfl
  | cons hd tl ih =>
    unfold firstMatch
    rw [h hd (by simp)]
    exact ih (fun p hp => h p (by simp [hp]))

/-- A table scan returns the first entry whose key matches, in declared
order. -/
theorem firstMatch_first (l₁ l₂ : List (String × String)) (k a mt : String)
    (hk : strContains mt k = true)
    (h : ∀ p ∈ l₁, strContains mt p.1 = false) :
    firstMatch (l₁ ++ (k, a) :: l₂) mt = some a := by
  induction l₁ with
  | nil => rw [List.nil_append]; unfold firstMatch; rw [hk]; rfl
  | cons hd tl ih =>
    rw [List.cons_append]
    unfold firstMatch
    rw [h hd (by simp)]
    exact ih (fun p hp => h p (by simp [hp]))

/-- C2, counterexample. The model type `llama2` contains the known key
`llama`, yet the classifier of `scripts/convert_model.py`
(`detect_architecture`, one of the claim's two code sources) returns
`None` — neither `llama` nor `generic` — because it looks the string up
exactly instead of matching substrings. -/
theorem c2_counterexample :
    strContains (pyLower "llama2") "llama" = true ∧
    ("llama", "llama") ∈ architecture_map ∧
    detect_architecture "llama2" = none := by decide

/-- C2, amended: the substring/first-match/generic behaviour holds for
`detect_model_architecture` in `scripts/convert_hf_to_coreml.py`: a model
type whose lower-casing matches no key classifies as `generic`, and one
whose first matching key (in the table's declared order) is `k` classifies
as `k`'s architecture. The classifier of `scripts/convert_model.py`
instead requires the lower-cased model type to equal a table key exactly:
it returns `None` precisely on non-keys, and the matching entry's value on
exact keys. -/
theorem c2_amended :
    (∀ mt : String,
      (∀ p ∈ architecture_mapping, strContains (pyLower mt) p.1 = false) →
      detect_model_architecture mt = "generic") ∧
    (∀ (mt k a : String) (l₁ l₂ : List (String × String)),
      architecture_mapping = l₁ ++ (k, a) :: l₂ →
      strContains (pyLower mt) k = true →
      (∀ p ∈ l₁, strContains (pyLower mt) p.1 = false) →
      detect_model_architecture mt = a) ∧
    (∀ mt : String,
      (detect_architecture mt = none ↔ ∀ p ∈ architecture_map, pyLower mt ≠ p.1)) ∧
    (∀ (mt : String) (p : String × String), p ∈ architecture_map →
      pyLower mt = p.1 → detect_architecture mt = some p.2) := by
  refine ⟨?_, ?_, ?_, ?_⟩
  · intro mt h
    unfold detect_model_architecture
    rw [firstMatch_eq_none _ _ h]
    rfl
  · intro mt k a l₁ l₂ htable hk h
    unfold detect_model_architecture
    rw [htable, firstMatch_first _ _ _ _ _ hk h]
    rfl
  · intro mt
    unfold detect_architecture
    simp [List.find?_eq_none]
    constructor
    · intro h k a hmem heq
      exact h k a hmem (by rw [heq])
    · intro h k a hmem heq
      exact h k a hmem (by rw [← heq])
  · intro mt p hp heq
    fin_cases hp <;> (unfold detect_architecture; rw [heq]; rfl)

/-- C2, witness: the generic fallback applied at the unknown type `gpt2`,
which matches no key of the table. -/
theorem c2_witness :
    (∀ p ∈ architecture_mapping, strContains (pyLower "gpt2") p.1 = false) ∧
    detect_model_architecture "gpt2" = "generic" :=
  ⟨by decide, c2_amended.1 "gpt2" (by decide)⟩

/-- C3, counterexample. With `--only 5` and no Stage-3/4 artifacts, the run
does fail without creating Stage-5 output — but the error is CPython's
`UnboundLocalError` for the local `ffn_chunks`, whose message does not name
the missing `prefill_chunk` keys; and no storage check is involved at all:
the identical error is raised even when the Stage-3/4 artifacts DO exist on
disk, which contradicts a `MissingArtifact` existence check. -/
theorem c3_counterexample :
    (runSteps p_only5 ⟨[], []⟩).1 = some (.unboundLocal "ffn_chunks") ∧
    strContains (PyError.message (.unboundLocal "ffn_chunks")) "prefill_chunk"
      = false ∧
    (runSteps p_only5 ⟨[], []⟩).2.2 = ⟨[], []⟩ ∧
    (runSteps p_only5
      ⟨chunkArts .ffn_chunk 6 2 ++ chunkArts .prefill_chunk 6 2, []⟩).1 =
      some (.unboundLocal "ffn_chunks") := by decide

/-- C3, amended: invoking the pipeline with `onlyStage = 5` while Stages 3
and 4 did not run in the same process fails before any Stage-5 effect and
exits with code 1, leaving the filesystem untouched — no `combined_chunk`
artifact is created. The failure is the `UnboundLocalError` raised when
the call `combine_models(params, temp_dir, ffn_chunks, prefill_chunks)`
reads the never-assigned local `ffn_chunks`; pre-existing artifacts on
storage are never consulted and no `MissingArtifact`-style error naming
the `ffn_chunk`/`prefill_chunk` keys is produced. -/
theorem c3_amended (fs0 : FS) (model output : String) (arch : Option String)
    (context batch_size chunks lut : ℕ) :
    runSteps (params_only5 model output arch context batch_size chunks lut) fs0 =
      (some (.unboundLocal "ffn_chunks"), {}, fs0) ∧
    main_exit (params_only5 model output arch context batch_size chunks lut)
      true fs0 = (1, fs0) := by
  constructor <;> rfl

/-- C4, counterexample. With `--only 2 --restart 5`, Stage 2 is the stage
identified by `onlyStage`, yet its gate is false and the run executes no
stage at all (the filesystem is unchanged when the `collect_outputs`
failure is reached): `onlyStage` does not take precedence regardless of
the `resumeFrom` value. -/
theorem c4_counterexample :
    step_gate p_only2_restart5 2 = false ∧
    (runSteps p_only2_restart5 ⟨[], []⟩).2.2 = ⟨[], []⟩ ∧
    Artifact.lm_head 6 ∉ (runSteps p_only2_restart5 ⟨[], []⟩).2.2.temp := by
  decide

/-- C4, amended: when both options are set (with a stage-valued
`onlyStage ≥ 1`), stage `i` is gated for execution precisely when
`i = onlyStage` AND `resumeFrom ≤ onlyStage`; in particular no stage at
all executes when `resumeFrom > onlyStage`, so `onlyStage` selects the
stage but does not override `resumeFrom`'s skip condition. -/
theorem c4_amended (o r i : ℕ) (ho : 1 ≤ o) :
    step_gate (params_only_restart o r) i = true ↔ (i = o ∧ r ≤ o) := by
  simp only [params_only_restart, step_gate, onlyGate, restartGate,
    Bool.and_eq_true, Bool.or_eq_true, beq_iff_eq, decide_eq_true_eq]
  omega

/-- C4, witness: the amended gate characterization at
`onlyStage = 2, resumeFrom = 5, i = 2`. -/
theorem c4_witness :
    1 ≤ 2 ∧
    (step_gate (params_only_restart 2 5) 2 = true ↔ (2 = 2 ∧ 5 ≤ 2)) :=
  ⟨by decide, c4_amended 2 5 2 (by decide)⟩

/-- C5, code bug. A full default run (`--model ... --output ...`, no
`--only`/`--restart`, dependencies present) executes all eight stage
effects successfully — embeddings, LM head, both FFN chunks, both prefill
chunks, both combined chunks, the compiled artifacts, the metadata files
and the test report all exist afterwards — yet the process exits with
code 1, because `collect_outputs` reads the name `params`, which is
undefined in its scope, raising `NameError` inside the `try` block; the
claim (and the spec) say such a run exits 0. -/
theorem c5_code_bug :
    (runSteps ({} : Params) ⟨[], []⟩).1 = some (.nameError "params") ∧
    (Artifact.embeddings ∈ (main_exit ({} : Params) true ⟨[], []⟩).2.temp ∧
     Artifact.lm_head 6 ∈ (main_exit ({} : Params) true ⟨[], []⟩).2.temp ∧
     Artifact.ffn_chunk 6 1 2 ∈ (main_exit ({} : Params) true ⟨[], []⟩).2.temp ∧
     Artifact.ffn_chunk 6 2 2 ∈ (main_exit ({} : Params) true ⟨[], []⟩).2.temp ∧
     Artifact.prefill_chunk 6 1 2 ∈ (main_exit ({} : Params) true ⟨[], []⟩).2.temp ∧
     Artifact.prefill_chunk 6 2 2 ∈ (main_exit ({} : Params) true ⟨[], []⟩).2.temp ∧
     Artifact.combined_chunk 6 1 2 ∈ (main_exit ({} : Params) true ⟨[], []⟩).2.temp ∧
     Artifact.combined_chunk 6 2 2 ∈ (main_exit ({} : Params) true ⟨[], []⟩).2.temp ∧
     Artifact.compiled Artifact.embeddings ∈ (main_exit ({} : Params) true ⟨[], []⟩).2.temp ∧
     Artifact.meta_yaml ∈ (main_exit ({} : Params) true ⟨[], []⟩).2.out ∧
     Artifact.meta_json ∈ (main_exit ({} : Params) true ⟨[], []⟩).2.out ∧
     Artifact.test_report ∈ (main_exit ({} : Params) true ⟨[], []⟩).2.out) ∧
    (main_exit ({} : Params) true ⟨[], []⟩).1 = 1 := by
  decide

set_option maxHeartbeats 4000000 in
/-- C6, confirmed: along the exact tracker-call sequence of a successful
`convert_hf_to_coreml.py` run (every `update_progress` and every
`progress_step` completion, in program order), the stored overall progress
is non-decreasing, and it equals exactly 1 once the final stage
completes. -/
theorem c6_progress_monotone :
    List.Chain' (· ≤ ·) (overalls {} hf_main_events) ∧
    (overalls {} hf_main_events).getLast? = some 1 := by
  norm_num [overalls, hf_main_events, pstep, progress_step_enter,
    progress_step_complete, update_progress, List.scanl, List.chain'_cons]

/-- Banded raw chunk count is monotone in the parameter count. -/
theorem chunk_count_raw_mono (b : ℕ) {p q : ℚ} (hpq : p ≤ q) :
    chunk_count_raw b p ≤ chunk_count_raw b q := by
  have hb : (0 : ℚ) ≤ (b : ℚ) := Nat.cast_nonneg b
  have h1 : (b : ℚ) ≤ (b : ℚ) * 1.25 := by nlinarith
  have h2 : (b : ℚ) * 1.25 ≤ (b : ℚ) * 1.5 := by nlinarith
  have hb1 : b ≤ ⌊(b : ℚ) * 1.25⌋₊ := Nat.le_floor h1
  have hb2 : b ≤ ⌊(b : ℚ) * 1.5⌋₊ := Nat.le_floor (h1.trans h2)
  have h12 : ⌊(b : ℚ) * 1.25⌋₊ ≤ ⌊(b : ℚ) * 1.5⌋₊ := Nat.floor_mono h2
  unfold chunk_count_raw
  split_ifs <;>
    first
    | exact le_rfl
    | exact hb1
    | exact hb2
    | exact h12
    | (exfalso; linarith)

/-- The even round-up with floor 4 is monotone. -/
theorem even_floor4_mono {m n : ℕ} (h : m ≤ n) :
    even_floor4 m ≤ even_floor4 n := by
  unfold even_floor4
  exact max_le_max le_rfl (Nat.mul_le_mul_left 2 (Nat.div_le_div_right (by omega)))

/-- The even round-up with floor 4 always yields an even number. -/
theorem even_floor4_even (m : ℕ) : Even (even_floor4 m) := by
  unfold even_floor4
  rcases max_choice 4 (2 * ((m + 1) / 2)) with h | h <;> rw [h]
  · exact ⟨2, rfl⟩
  · exact ⟨(m + 1) / 2, by ring⟩

/-- The even round-up with floor 4 is at least 4. -/
theorem even_floor4_ge4 (m : ℕ) : 4 ≤ even_floor4 m :=
  le_max_left _ _

/-- C7, confirmed: for every fixed architecture the sized chunk count is
monotonically non-decreasing in the estimated parameter count, and for
every input config `recommend_chunk_count` returns an even number that is
at least 4 (the missing-field default 6 included). -/
theorem c7_monotone_even_ge4 :
    (∀ (architecture : String) (p q : ℚ), p ≤ q →
      chunk_count_of architecture p ≤ chunk_count_of architecture q) ∧
    (∀ c : HFConfig,
      Even (recommend_chunk_count c) ∧ 4 ≤ recommend_chunk_count c) := by
  constructor
  · intro arch p q hpq
    exact even_floor4_mono (chunk_count_raw_mono _ hpq)
  · intro c
    simp only [recommend_chunk_count]
    split_ifs with h
    · exact ⟨⟨3, rfl⟩, by omega⟩
    · exact ⟨even_floor4_even _, even_floor4_ge4 _⟩

/-- C7, witness: monotonicity applied at the llama architecture between
parameter counts 0 and 1. -/
theorem c7_witness :
    (0 : ℚ) ≤ 1 ∧ chunk_count_of "llama" 0 ≤ chunk_count_of "llama" 1 :=
  ⟨by norm_num, c7_monotone_even_ge4.1 "llama" 0 1 (by norm_num)⟩

/-- C8, confirmed: whenever a required sizing field is missing — the
resolved hidden size, the resolved layer count or the vocabulary size is
absent — `recommend_chunk_count` returns the fixed default 6 (and, being a
total function of the config, raises nothing). -/
theorem c8_missing_fields_default (c : HFConfig)
    (h : resolveHiddenSize c = none ∨ resolveNumLayers c = none ∨
      c.vocab_size = none) :
    recommend_chunk_count c = 6 := by
  rcases h with h | h | h <;> simp [recommend_chunk_count, h, pyTruthy]

/-- C8, witness: a config carrying only a model type (all sizing fields
absent) resolves to the default 6. -/
theorem c8_witness :
    resolveHiddenSize { model_type := "test" } = none ∧
    recommend_chunk_count { model_type := "test" } = 6 :=
  ⟨rfl, c8_missing_fields_default _ (Or.inl rfl)⟩

/-- C9, confirmed: each `update_progress` call attaches the ETA
`elapsed / overall - elapsed` to its report exactly when the freshly
computed overall progress exceeds 0.05; at or below 0.05 the report
carries no ETA and the guarded division is never formed. -/
theorem c9_eta_guard (progress elapsed : ℚ) (s : ProgressState) :
    ((update_progress_report progress elapsed s).2.overall > 0.05 →
      (update_progress_report progress elapsed s).2.eta =
        some (elapsed / (update_progress_report progress elapsed s).2.overall
          - elapsed)) ∧
    ((update_progress_report progress elapsed s).2.overall ≤ 0.05 →
      (update_progress_report progress elapsed s).2.eta = none) := by
  unfold update_progress_report
  constructor <;> intro h
  · simp only at h ⊢
    rw [if_pos h]
  · simp only at h ⊢
    rw [if_neg (not_lt.mpr h)]

/-- C9, witness: the first update of a fresh eight-step run (fraction
1/10, overall 1/80 ≤ 0.05) reports no ETA. -/
theorem c9_witness :
    (update_progress_report (1 / 10) 5 {}).2.overall ≤ 0.05 ∧
    (update_progress_report (1 / 10) 5 {}).2.eta = none :=
  ⟨by norm_num [update_progress_report, update_progress],
   (c9_eta_guard (1 / 10) 5 {}).2
     (by norm_num [update_progress_report, update_progress])⟩

/-- C10, confirmed: for every logits vector, temperature and `top_p`
value, the generated logit processor returns the argmax token of the
softmax of the temperature-scaled logits, and the `top_p` argument never
influences the result — two calls differing only in `top_p` return the
same token (no nucleus sampling happens). -/
theorem c10_forward_ignores_top_p (exp : ℚ → ℚ) (logits : List ℚ)
    (temperature top_p top_p2 : ℚ) :
    LogitProcessor_forward exp logits temperature top_p =
      argmaxIdx (softmax exp (logits.map (fun x => x / temperature))) ∧
    LogitProcessor_forward exp logits temperature top_p =
      LogitProcessor_forward exp logits temperature top_p2 :=
  ⟨rfl, rfl⟩
